import Mathlib

/-! # Shallow embedding of persession main.py

Verification development for a persistent requests.Session wrapper with
file-based caching and a login helper (persession/main.py).  Session
state is modelled explicitly; the external HTTP engine and the pickled
cache file are modelled as abstract collaborators.  Events record the
externally visible actions of an operation: requests handed to the
underlying engine, cache-file writes, and engine shutdown. -/

def DEFAULT_USER_AGENT : String :=
  "Mozilla/5.0 (X11; Ubuntu; Linux x86_64; rv:68.0) Gecko/20100101 Firefox/68.0"

def DEFAULT_CACHE_TIMEOUT : Nat := 60 * 60

/-- CacheType enumeration (main.py lines 18-37). -/
inductive CacheType where
  | MANUAL
  | AFTER_EACH_REQUEST
  | AFTER_EACH_POST
  | AFTER_EACH_LOGIN
  | AT_EXIT
deriving DecidableEq

/-- LoginStatus enumeration (main.py lines 40-44). -/
inductive LoginStatus where
  | SUCCESS
  | FAILURE
deriving DecidableEq

/-- The state carried by a Session instance: the requests.Session data
(cookies, headers, proxies) plus the cache configuration attributes set
in the initializer, and the _is_context flag (false models "attribute
absent", since the code only ever sets it to True). -/
structure Session where
  cookies : List (String × String)
  headers : List (String × String)
  proxies : List (String × String)
  cache_file_path : String
  cache_timeout : Nat
  cache_type : CacheType
  is_context : Bool
deriving DecidableEq

/-- Exceptions that escape the modelled code paths. -/
inductive PyError where
  | typeError
  | eofError
deriving DecidableEq

/-- Outcome of pickle.load on the cache file contents (main.py line 233).
pickle.load either returns a value (a Session instance or something
else) or raises; pickle.UnpicklingError is the only exception type the
source catches, while deserialization of an empty or truncated file
raises EOFError, which the source does not catch. -/
inductive PickleOutcome where
  | ok (s : Session)
  | okOther
  | raisesUnpickling
  | raisesEOF
deriving DecidableEq

/-- The external world seen by load_session: whether the cache file
exists, its age (datetime.now minus the file modification time, in whole
seconds) and what unpickling its contents yields. -/
structure World where
  cache_exists : Bool
  cache_age : Nat
  cache_content : PickleOutcome
deriving DecidableEq

/-- A prepared HTTP request as seen by Session.send: method (None is
possible on a PreparedRequest), url, body payload, and whether redirect
following is enabled. -/
structure Request where
  method : Option String
  url : String
  body : Option String
  allowRedirects : Bool
deriving DecidableEq

/-- Externally visible actions of an operation, in order. -/
inductive Event where
  | engineSend (r : Request)
  | cacheWrite
  | engineClose
deriving DecidableEq

/-- The underlying HTTP engine (requests machinery below the overridden
send): maps a request to a response status code. -/
structure HttpEngine where
  respond : Request → Nat

def is_cache_write : Event → Bool
  | Event.cacheWrite => true
  | _ => false

/-- Number of cache-file writes in an event trace. -/
def count_writes (tr : List Event) : Nat := (tr.filter is_cache_write).length

/-- The requests handed to the underlying engine in an event trace. -/
def requests_of (tr : List Event) : List Request :=
  tr.filterMap (fun ev =>
    match ev with
    | Event.engineSend r => some r
    | _ => none)

/-- First-match lookup in a Python dict modelled as an association list. -/
def dict_get : List (String × String) → String → Option String
  | [], _ => none
  | (a, b) :: t, key => if a = key then some b else dict_get t key

/-- Python dict.update(upd) on base, observed through dict_get: keys of
upd win, remaining keys of base survive. -/
def dict_merge (base upd : List (String × String)) : List (String × String) :=
  upd ++ base.filter (fun p => (dict_get upd p.1).isNone)

/-- Python str.lower restricted to the ASCII range, which covers HTTP
method names and header keys; written structurally over the character
list so that it evaluates on concrete strings. -/
def str_lower (s : String) : String :=
  String.mk (s.data.map Char.toLower)

/-- Case-insensitive lookup, modelling requests CaseInsensitiveDict. -/
def headers_get : List (String × String) → String → Option String
  | [], _ => none
  | (a, b) :: t, key =>
      if str_lower a = str_lower key then some b else headers_get t key

/-- Case-insensitive single-key update on a CaseInsensitiveDict. -/
def headers_update (hs : List (String × String)) (k v : String) :
    List (String × String) :=
  (k, v) :: hs.filter (fun p => ¬ str_lower p.1 = str_lower k)

/-- Python timedelta normalization: for a nonnegative delta of
this many whole seconds, the seconds attribute is the value modulo one
day (86400), the day part going to the days attribute. -/
def timedelta_seconds (total : Nat) : Nat := total % 86400

/-- tempfile.NamedTemporaryFile result: its name attribute is a str
holding the allocated path. -/
structure NamedTempFileObj where
  name : String

/-- Models tempfile.NamedTemporaryFile(prefix=pre, suffix=suf,
delete=False): allocates a fresh path and exposes it as the str
attribute name. -/
def NamedTemporaryFile (pre suf : String) : NamedTempFileObj :=
  { name := "/tmp/" ++ pre ++ "XXXXXXXX" ++ suf }

/-- Calling a str value in Python raises TypeError (str object is not
callable). -/
def callStr (_s : String) : Except PyError String :=
  Except.error PyError.typeError

/-- get_temp_file_path (main.py lines 62-75).  Line 71 executes
file_path = temp_file.name() — but name is a str attribute, not a
method, so the call raises TypeError; the finally block closes the file
and the exception propagates. -/
def get_temp_file_path (pre suf : String) : Except PyError String := do
  let temp_file := NamedTemporaryFile pre suf
  let file_path ← callStr temp_file.name
  pure file_path

/-- Models self.__dict__.update(session.__dict__) at main.py line 240:
every persisted attribute of the current session is replaced by the
unpickled one.  The _is_context flag appears in a pickled dict only when
it was ever set (only ever to True), so a false cached flag leaves the
current one in place. -/
def dict_update (σ s : Session) : Session :=
  { s with is_context := σ.is_context || s.is_context }

/-- load_session (main.py lines 211-244).  Returns false when the file
is absent; computes (datetime.now() - mtime).seconds and compares it
with cache_timeout; on a fresh file, unpickles: a caught
pickle.UnpicklingError or a non-Session value degrade to false, an
EOFError propagates, a Session value is adopted wholesale. -/
def Session.load_session (σ : Session) (w : World) :
    Except PyError (Bool × Session) :=
  if w.cache_exists = false then Except.ok (false, σ)
  else
    let last_modified_time := timedelta_seconds w.cache_age
    if last_modified_time < σ.cache_timeout then
      match w.cache_content with
      | PickleOutcome.ok s => Except.ok (true, dict_update σ s)
      | PickleOutcome.okOther => Except.ok (false, σ)
      | PickleOutcome.raisesUnpickling => Except.ok (false, σ)
      | PickleOutcome.raisesEOF => Except.error PyError.eofError
    else Except.ok (false, σ)

/-- The truthiness test request.method and request.method.lower() ==
"post" from main.py line 275. -/
def method_is_post : Option String → Bool
  | some m => str_lower m == "post"
  | none => false

/-- Session.send (main.py lines 271-278): delegate to the underlying
engine, then write the cache iff cache_type is AFTER_EACH_REQUEST, or
cache_type is AFTER_EACH_POST and the request method lowercases to
"post". -/
def Session.send (σ : Session) (e : HttpEngine) (r : Request) :
    Nat × List Event :=
  let res := e.respond r
  if σ.cache_type = CacheType.AFTER_EACH_REQUEST ∨
      (σ.cache_type = CacheType.AFTER_EACH_POST ∧ method_is_post r.method = true) then
    (res, [Event.engineSend r, Event.cacheWrite])
  else
    (res, [Event.engineSend r])

/-- The probe request issued by is_logged_in: a GET to the login url
with allow_redirects=False and no body. -/
def login_check_request (url : String) : Request :=
  { method := some "GET", url := url, body := none, allowRedirects := false }

/-- Session.is_logged_in (main.py lines 253-269): an empty (falsy) url
returns false without any request; otherwise a redirect-disabled GET is
issued through the overridden send and the result is true iff the
status code is exactly 302. -/
def Session.is_logged_in (σ : Session) (e : HttpEngine) (login_url : String) :
    Bool × List Event :=
  if login_url = "" then (false, [])
  else
    let sent := Session.send σ e (login_check_request login_url)
    (sent.1 == 302, sent.2)

/-- The POST request that login sends: the payload as body, redirects
followed (the requests default for session.post). -/
def post_request (url payload : String) : Request :=
  { method := some "POST", url := url, body := some payload, allowRedirects := true }

/-- The response wrapper returned by login: the login status plus the
wrapped POST response (main.py lines 47-59), reduced to its status
code. -/
structure LoginResponse where
  login_status : LoginStatus
  status_code : Nat
deriving DecidableEq

/-- Session.login (main.py lines 157-183): POST the payload to url
through the overridden send, then call is_logged_in on the same url; on
success cache the session iff cache_type is AFTER_EACH_LOGIN, and wrap
the POST response with the outcome status. -/
def Session.login (σ : Session) (e : HttpEngine) (url payload : String) :
    LoginResponse × List Event :=
  let posted := Session.send σ e (post_request url payload)
  let check := Session.is_logged_in σ e url
  if check.1 then
    if σ.cache_type = CacheType.AFTER_EACH_LOGIN then
      ({ login_status := LoginStatus.SUCCESS, status_code := posted.1 },
        posted.2 ++ check.2 ++ [Event.cacheWrite])
    else
      ({ login_status := LoginStatus.SUCCESS, status_code := posted.1 },
        posted.2 ++ check.2)
  else
    ({ login_status := LoginStatus.FAILURE, status_code := posted.1 },
      posted.2 ++ check.2)

/-- save_on_exit (main.py lines 202-209): on a fully constructed session
the hasattr guards pass; unless cache_type is AT_EXIT nothing happens;
otherwise the cache is written and then the engine is closed. -/
def Session.save_on_exit (σ : Session) : List Event :=
  if ¬ σ.cache_type = CacheType.AT_EXIT then []
  else [Event.cacheWrite, Event.engineClose]

/-- Context-manager entry (main.py lines 185-187): records the one-shot
flag that suppresses the finalizer fallback. -/
def Session.enter_ctx (σ : Session) : Session :=
  { σ with is_context := true }

/-- Context-manager exit (main.py lines 189-190): runs save_on_exit on
the entered state. -/
def Session.exit_ctx (σ : Session) : Session × List Event :=
  (σ, Session.save_on_exit σ)

/-- The finalizer fallback (main.py lines 192-200): skipped entirely
when the context-manager flag was set, otherwise runs save_on_exit. -/
def Session.del_finalizer (σ : Session) : List Event :=
  if σ.is_context then [] else Session.save_on_exit σ

/-- get_cache_file_path (main.py lines 280-286). -/
def Session.get_cache_file_path (σ : Session) : String :=
  σ.cache_file_path

/-- The constructor arguments of Session.__init__ (main.py lines
91-99), with the source defaults. -/
structure InitArgs where
  cache_file_path : Option String := none
  cache_timeout : Nat := DEFAULT_CACHE_TIMEOUT
  cache_type : CacheType := CacheType.AFTER_EACH_LOGIN
  proxies : Option (List (String × String)) := none
  user_agent : Option String := some DEFAULT_USER_AGENT
deriving DecidableEq

/-- A fresh requests.Session as produced by super().__init__(): empty
cookie jar, default headers carrying the requests user agent, no
proxies.  The cache attributes do not exist yet in Python; they are
assigned before first use, so their placeholder values here are never
observed. -/
def requests_session_new : Session :=
  { cookies := []
  , headers := [("User-Agent", "python-requests/2.x")]
  , proxies := []
  , cache_file_path := ""
  , cache_timeout := 0
  , cache_type := CacheType.AFTER_EACH_LOGIN
  , is_context := false }

/-- The cache path chosen at main.py lines 121-122: the given path when
truthy, otherwise a fresh temporary path via get_temp_file_path. -/
def init_cache_path (args : InitArgs) : Except PyError String :=
  match args.cache_file_path with
  | some p => if p = "" then get_temp_file_path "Session" ".dat" else Except.ok p
  | none => get_temp_file_path "Session" ".dat"

/-- The session state right before load_session runs (main.py lines
119-125): fresh engine state plus the cache configuration. -/
def init_configured (args : InitArgs) (path : String) : Session :=
  { requests_session_new with
      cache_file_path := path
    , cache_timeout := args.cache_timeout
    , cache_type := args.cache_type }

/-- Main.py lines 126-127: a truthy proxies dict is merged into the
session proxies. -/
def apply_proxies (args : InitArgs) (σ : Session) : Session :=
  match args.proxies with
  | some ps => if ps = [] then σ else { σ with proxies := dict_merge σ.proxies ps }
  | none => σ

/-- Main.py lines 128-129: a truthy user_agent replaces the user-agent
header. -/
def apply_user_agent (args : InitArgs) (σ : Session) : Session :=
  match args.user_agent with
  | some ua =>
      if ua = "" then σ
      else { σ with headers := headers_update σ.headers "user-agent" ua }
  | none => σ

/-- The override tail of the constructor (main.py lines 126-129): the
proxies override runs first, then the user_agent override. -/
def apply_overrides (args : InitArgs) (σ : Session) : Session :=
  apply_user_agent args (apply_proxies args σ)

/-- Session.__init__ (main.py lines 91-129): choose the cache path, set
the cache configuration, run load_session (its exceptions propagate),
then apply the proxies and user_agent overrides. -/
def Session.init (args : InitArgs) (w : World) : Except PyError Session :=
  match init_cache_path args with
  | Except.error err => Except.error err
  | Except.ok path =>
      match Session.load_session (init_configured args path) w with
      | Except.error err => Except.error err
      | Except.ok (_, σ2) => Except.ok (apply_overrides args σ2)

/-- A convenient fully constructed session state. -/
def base_session (ct : CacheType) (timeout : Nat) : Session :=
  { cookies := []
  , headers := [("User-Agent", "python-requests/2.x")]
  , proxies := []
  , cache_file_path := "cache.dat"
  , cache_timeout := timeout
  , cache_type := ct
  , is_context := false }

/-- A session configured with the default one-hour timeout. -/
def c1_session : Session := base_session CacheType.AFTER_EACH_LOGIN 3600

/-- The snapshot stored in the day-old cache file. -/
def c1_cached : Session :=
  { base_session CacheType.AFTER_EACH_LOGIN 3600 with cookies := [("sid", "abc")] }

/-- A cache file whose age is exactly one day (86400 seconds), holding a
valid pickled Session. -/
def c1_world : World :=
  { cache_exists := true, cache_age := 86400, cache_content := PickleOutcome.ok c1_cached }

/-- Session used for the corruption scenarios. -/
def c2_session : Session := base_session CacheType.AFTER_EACH_LOGIN 3600

/-- A fresh cache file whose contents make pickle.load raise EOFError
(for example a zero-byte file). -/
def c2_eof_world : World :=
  { cache_exists := true, cache_age := 0, cache_content := PickleOutcome.raisesEOF }

/-- A fresh cache file whose contents make pickle.load raise
pickle.UnpicklingError. -/
def c2_unpickling_world : World :=
  { cache_exists := true, cache_age := 0, cache_content := PickleOutcome.raisesUnpickling }

/-- Constructor arguments with an explicit cache path. -/
def c2_args : InitArgs := { cache_file_path := some "cache.dat" }

/-- Session used for the login-check witnesses. -/
def c4_session : Session := base_session CacheType.MANUAL 3600

/-- An engine answering 302 to everything. -/
def engine302 : HttpEngine := { respond := fun _ => 302 }

/-- Session with the AFTER_EACH_POST policy. -/
def c5_session : Session := base_session CacheType.AFTER_EACH_POST 3600

/-- An engine answering 200 to everything. -/
def engine200 : HttpEngine := { respond := fun _ => 200 }

def c5_req_get : Request :=
  { method := some "GET", url := "http://a", body := none, allowRedirects := true }

def c5_req_post : Request :=
  { method := some "POST", url := "http://a", body := some "d", allowRedirects := true }

/-- Session with the AT_EXIT policy. -/
def c6_session : Session := base_session CacheType.AT_EXIT 3600

/-- Constructor arguments leaving every parameter at its default; in
particular no cache path is given. -/
def c8_args : InitArgs := {}

/-- A world with no cache file. -/
def c8_world : World :=
  { cache_exists := false, cache_age := 0, cache_content := PickleOutcome.okOther }

/-- Constructor arguments passing an explicit user_agent X over a valid
cache that stored user-agent Y. -/
def c9_args : InitArgs :=
  { cache_file_path := some "cache.dat"
  , cache_timeout := 3600
  , cache_type := CacheType.AFTER_EACH_LOGIN
  , proxies := none
  , user_agent := some "X" }

/-- The cached snapshot, whose stored user-agent header is Y. -/
def c9_cached : Session :=
  { cookies := [("sid", "abc")]
  , headers := [("user-agent", "Y")]
  , proxies := []
  , cache_file_path := "cache.dat"
  , cache_timeout := 3600
  , cache_type := CacheType.AFTER_EACH_LOGIN
  , is_context := false }

/-- A fresh, valid cache file holding that snapshot. -/
def c9_world : World :=
  { cache_exists := true, cache_age := 10, cache_content := PickleOutcome.ok c9_cached }

/-- The session state the constructor produces in that scenario. -/
def c9_result : Session := { c9_cached with headers := [("user-agent", "X")] }

def c10_session : Session := base_session CacheType.MANUAL 3600

def c10_world : World :=
  { cache_exists := false, cache_age := 0, cache_content := PickleOutcome.okOther }

lemma send_fst (σ : Session) (e : HttpEngine) (r : Request) :
    (Session.send σ e r).1 = e.respond r := by
  by_cases h : σ.cache_type = CacheType.AFTER_EACH_REQUEST ∨
      (σ.cache_type = CacheType.AFTER_EACH_POST ∧ method_is_post r.method = true) <;>
    simp [Session.send, h]

lemma count_writes_send (σ : Session) (e : HttpEngine) (r : Request) :
    count_writes (Session.send σ e r).2 =
      if σ.cache_type = CacheType.AFTER_EACH_REQUEST ∨
          (σ.cache_type = CacheType.AFTER_EACH_POST ∧ method_is_post r.method = true)
      then 1 else 0 := by
  by_cases h : σ.cache_type = CacheType.AFTER_EACH_REQUEST ∨
      (σ.cache_type = CacheType.AFTER_EACH_POST ∧ method_is_post r.method = true) <;>
    simp [Session.send, h, count_writes, is_cache_write]

lemma method_is_post_iff (om : Option String) :
    method_is_post om = true ↔ ∃ m, om = some m ∧ str_lower m = "post" := by
  cases om with
  | none => simp [method_is_post]
  | some m => simp [method_is_post]

lemma dict_get_append_left (u rest : List (String × String)) (k v : String)
    (h : dict_get u k = some v) : dict_get (u ++ rest) k = some v := by
  induction u with
  | nil => simp [dict_get] at h
  | cons p t ih =>
      obtain ⟨a, b⟩ := p
      by_cases hak : a = k
      · simp [dict_get, hak] at h ⊢
        exact h
      · simp [dict_get, hak] at h ⊢
        exact ih h

lemma dict_get_merge (base upd : List (String × String)) (k v : String)
    (h : dict_get upd k = some v) :
    dict_get (dict_merge base upd) k = some v := by
  unfold dict_merge
  exact dict_get_append_left upd _ k v h

lemma apply_user_agent_headers (args : InitArgs) (σ : Session) (ua : String)
    (hua : args.user_agent = some ua) (hne : ¬ ua = "") :
    headers_get (apply_user_agent args σ).headers "user-agent" = some ua := by
  simp [apply_user_agent, hua, hne, headers_update, headers_get]

lemma apply_user_agent_proxies_eq (args : InitArgs) (σ : Session) :
    (apply_user_agent args σ).proxies = σ.proxies := by
  cases hua : args.user_agent with
  | none => simp [apply_user_agent, hua]
  | some ua =>
      by_cases h0 : ua = "" <;> simp [apply_user_agent, hua, h0]

lemma apply_proxies_get (args : InitArgs) (σ : Session)
    (ps : List (String × String)) (k v : String)
    (hps : args.proxies = some ps) (hget : dict_get ps k = some v) :
    dict_get (apply_proxies args σ).proxies k = some v := by
  have hne : ¬ ps = [] := by
    intro h0
    rw [h0] at hget
    simp [dict_get] at hget
  simp only [apply_proxies, hps]
  rw [if_neg hne]
  exact dict_get_merge σ.proxies ps k v hget

lemma apply_overrides_user_agent (args : InitArgs) (σ : Session) (ua : String)
    (hua : args.user_agent = some ua) (hne : ¬ ua = "") :
    headers_get (apply_overrides args σ).headers "user-agent" = some ua := by
  unfold apply_overrides
  exact apply_user_agent_headers args _ ua hua hne

lemma apply_overrides_proxies (args : InitArgs) (σ : Session)
    (ps : List (String × String)) (k v : String)
    (hps : args.proxies = some ps) (hget : dict_get ps k = some v) :
    dict_get (apply_overrides args σ).proxies k = some v := by
  unfold apply_overrides
  rw [apply_user_agent_proxies_eq]
  exact apply_proxies_get args σ ps k v hps hget

/-- Claim C1: the spec requires a cached snapshot to be loaded iff its
age is strictly below the timeout, for any magnitude of age.  The code
instead compares (now - mtime).seconds, the timedelta seconds component,
so a cache exactly one day old (age 86400, modulo one day equal to 0)
is loaded even though its age far exceeds the 3600 second timeout. -/
theorem load_session_loads_day_old_cache :
    c1_session.cache_timeout ≤ c1_world.cache_age ∧
    Session.load_session c1_session c1_world =
      Except.ok (true, dict_update c1_session c1_cached) := by
  constructor
  · decide
  · rfl

/-- Claim C2: the spec requires a corrupt cache never to raise out of
construction.  The code catches only pickle.UnpicklingError, so a fresh
cache file whose contents raise EOFError (an empty or truncated pickle)
propagates the exception out of load_session and out of the
constructor, while an UnpicklingError is indeed degraded to a failed
load. -/
theorem load_session_uncaught_eof :
    Session.load_session c2_session c2_eof_world = Except.error PyError.eofError ∧
    Session.init c2_args c2_eof_world = Except.error PyError.eofError ∧
    Session.load_session c2_session c2_unpickling_world =
      Except.ok (false, c2_session) := by
  refine ⟨rfl, rfl, rfl⟩

/-- Claim C7: an empty login check url makes is_logged_in return false
with no request issued to the engine. -/
theorem is_logged_in_empty_url (σ : Session) (e : HttpEngine) :
    Session.is_logged_in σ e "" = (false, []) ∧
    requests_of (Session.is_logged_in σ e "").2 = [] :=
  ⟨rfl, rfl⟩

/-- Claim C8: the spec says construction without a cache path succeeds,
allocating a temporary file path.  The code calls temp_file.name() at
main.py line 71, but name is a str attribute, not a method, so
get_temp_file_path raises TypeError and construction with no
cache_file_path argument always fails. -/
theorem get_temp_file_path_type_error :
    get_temp_file_path "Session" ".dat" = Except.error PyError.typeError ∧
    Session.init c8_args c8_world = Except.error PyError.typeError :=
  ⟨rfl, rfl⟩

/-- Claim C6: save_on_exit is a no-op unless cache_type is AT_EXIT;
when it is AT_EXIT it writes the cache and then closes the engine; and
after the context-manager path has run, the finalizer fallback performs
no further action, so the instance never double-saves. -/
theorem save_on_exit_spec (σ : Session) :
    (¬ σ.cache_type = CacheType.AT_EXIT → Session.save_on_exit σ = []) ∧
    (σ.cache_type = CacheType.AT_EXIT →
      Session.save_on_exit σ = [Event.cacheWrite, Event.engineClose]) ∧
    Session.del_finalizer ((Session.exit_ctx (Session.enter_ctx σ)).1) = [] := by
  refine ⟨?_, ?_, ?_⟩
  · intro h
    simp [Session.save_on_exit, h]
  · intro h
    simp [Session.save_on_exit, h]
  · simp [Session.del_finalizer, Session.exit_ctx, Session.enter_ctx]

theorem save_on_exit_spec_witness :
    c6_session.cache_type = CacheType.AT_EXIT ∧
    Session.save_on_exit c6_session = [Event.cacheWrite, Event.engineClose] :=
  ⟨rfl, (save_on_exit_spec c6_session).2.1 rfl⟩

/-- Claim C3: login first sends the payload as a POST to url through
the overridden send, then calls is_logged_in on that same url; the
returned status is SUCCESS iff is_logged_in returned true; and the
login-success cache write happens exactly when that check succeeded and
cache_type is AFTER_EACH_LOGIN. -/
theorem login_spec (σ : Session) (e : HttpEngine) (url payload : String) :
    ((Session.login σ e url payload).1.login_status = LoginStatus.SUCCESS ↔
      (Session.is_logged_in σ e url).1 = true) ∧
    (Session.login σ e url payload).2 =
      (Session.send σ e (post_request url payload)).2 ++
        (Session.is_logged_in σ e url).2 ++
        (if (Session.is_logged_in σ e url).1 = true ∧
            σ.cache_type = CacheType.AFTER_EACH_LOGIN
         then [Event.cacheWrite] else []) := by
  by_cases hc : (Session.is_logged_in σ e url).1 = true
  · by_cases hct : σ.cache_type = CacheType.AFTER_EACH_LOGIN
    · simp [Session.login, hc, hct]
    · simp [Session.login, hc, hct]
  · simp [Session.login, hc]

/-- Claim C4: for a non-empty login check url, is_logged_in issues
exactly one request to the engine, a GET to that url with redirect
following disabled, and returns true iff the engine answers exactly
status 302. -/
theorem is_logged_in_redirect_check (σ : Session) (e : HttpEngine) (url : String)
    (h : ¬ url = "") :
    ((Session.is_logged_in σ e url).1 = true ↔
      e.respond (login_check_request url) = 302) ∧
    requests_of (Session.is_logged_in σ e url).2 = [login_check_request url] ∧
    (login_check_request url).method = some "GET" ∧
    (login_check_request url).allowRedirects = false := by
  refine ⟨?_, ?_, rfl, rfl⟩
  · simp [Session.is_logged_in, h, send_fst]
  · simp only [Session.is_logged_in, h, if_neg]
    by_cases hc : σ.cache_type = CacheType.AFTER_EACH_REQUEST ∨
        (σ.cache_type = CacheType.AFTER_EACH_POST ∧
          method_is_post (login_check_request url).method = true) <;>
      simp [Session.send, hc, requests_of]

theorem is_logged_in_redirect_check_witness :
    (¬ "http://u" = "") ∧
    ((Session.is_logged_in c4_session engine302 "http://u").1 = true ↔
      engine302.respond (login_check_request "http://u") = 302) :=
  ⟨by decide,
    (is_logged_in_redirect_check c4_session engine302 "http://u" (by decide)).1⟩

/-- Claim C5: send delegates to the engine and writes the cache iff
cache_type is AFTER_EACH_REQUEST, or cache_type is AFTER_EACH_POST and
the request method equals POST case-insensitively; under MANUAL,
AFTER_EACH_LOGIN and AT_EXIT it never writes; and under
AFTER_EACH_POST a GET followed by a POST produces exactly one write,
placed after the POST. -/
theorem send_trigger_spec (σ : Session) (e : HttpEngine) (r rg rp : Request)
    (hg : rg.method = some "GET") (hp : rp.method = some "POST") :
    (¬ count_writes (Session.send σ e r).2 = 0 ↔
      (σ.cache_type = CacheType.AFTER_EACH_REQUEST ∨
        (σ.cache_type = CacheType.AFTER_EACH_POST ∧
          ∃ m, r.method = some m ∧ str_lower m = "post"))) ∧
    ((σ.cache_type = CacheType.MANUAL ∨ σ.cache_type = CacheType.AFTER_EACH_LOGIN ∨
        σ.cache_type = CacheType.AT_EXIT) →
      count_writes (Session.send σ e r).2 = 0) ∧
    (σ.cache_type = CacheType.AFTER_EACH_POST →
      (Session.send σ e rg).2 ++ (Session.send σ e rp).2 =
        [Event.engineSend rg, Event.engineSend rp, Event.cacheWrite]) := by
  refine ⟨?_, ?_, ?_⟩
  · rw [count_writes_send, ← method_is_post_iff r.method]
    split
    next hcond => simp [hcond]
    next hcond => simp [hcond]
  · intro h
    rw [count_writes_send]
    have hget : method_is_post rg.method = false := by rw [hg]; decide
    rcases h with h | h | h <;> simp [h]
  · intro h
    have hget : method_is_post rg.method = false := by rw [hg]; decide
    have hpost : method_is_post rp.method = true := by rw [hp]; decide
    simp [Session.send, h, hget, hpost]

theorem send_trigger_spec_witness :
    c5_req_get.method = some "GET" ∧ c5_req_post.method = some "POST" ∧
    c5_session.cache_type = CacheType.AFTER_EACH_POST ∧
    (Session.send c5_session engine200 c5_req_get).2 ++
        (Session.send c5_session engine200 c5_req_post).2 =
      [Event.engineSend c5_req_get, Event.engineSend c5_req_post, Event.cacheWrite] :=
  ⟨rfl, rfl, rfl,
    (send_trigger_spec c5_session engine200 c5_req_get c5_req_get c5_req_post
      rfl rfl).2.2 rfl⟩

/-- Claim C9: whenever construction succeeds with an explicit non-empty
user_agent argument, the resulting session's effective user-agent
header is that argument (it is applied after any restored state), and
every explicitly passed proxy entry is present in the resulting proxy
configuration. -/
theorem constructor_overrides_win (args : InitArgs) (w : World) (ua : String)
    (σ : Session) (hua : args.user_agent = some ua) (hne : ¬ ua = "")
    (hinit : Session.init args w = Except.ok σ) :
    headers_get σ.headers "user-agent" = some ua ∧
    (∀ ps k v, args.proxies = some ps → dict_get ps k = some v →
      dict_get σ.proxies k = some v) := by
  unfold Session.init at hinit
  cases h1 : init_cache_path args with
  | error err =>
      simp only [h1] at hinit
      exact Except.noConfusion hinit
  | ok path =>
      simp only [h1] at hinit
      cases h2 : Session.load_session (init_configured args path) w with
      | error err =>
          simp only [h2] at hinit
          exact Except.noConfusion hinit
      | ok pr =>
          obtain ⟨b, σ2⟩ := pr
          simp only [h2, Except.ok.injEq] at hinit
          subst hinit
          refine ⟨apply_overrides_user_agent args σ2 ua hua hne, ?_⟩
          intro ps k v hps hget
          exact apply_overrides_proxies args σ2 ps k v hps hget

theorem constructor_overrides_win_witness :
    c9_args.user_agent = some "X" ∧
    Session.init c9_args c9_world = Except.ok c9_result ∧
    headers_get c9_result.headers "user-agent" = some "X" :=
  ⟨rfl, rfl,
    (constructor_overrides_win c9_args c9_world "X" c9_result rfl
      (by decide) rfl).1⟩

/-- Claim C10: whenever load_session returns false, the session state
it returns is exactly the state it was given — a failed load mutates
no cookies, headers, proxies or cache configuration. -/
theorem load_session_false_preserves_state (σ : Session) (w : World) (σ2 : Session)
    (h : Session.load_session σ w = Except.ok (false, σ2)) : σ2 = σ := by
  by_cases he : w.cache_exists = false
  · simp [Session.load_session, he] at h
    exact h.symm
  · by_cases hf : timedelta_seconds w.cache_age < σ.cache_timeout
    · cases hc : w.cache_content with
      | ok s => simp [Session.load_session, he, hf, hc] at h
      | okOther =>
          simp [Session.load_session, he, hf, hc] at h
          exact h.symm
      | raisesUnpickling =>
          simp [Session.load_session, he, hf, hc] at h
          exact h.symm
      | raisesEOF => simp [Session.load_session, he, hf, hc] at h
    · simp [Session.load_session, he, hf] at h
      exact h.symm

theorem load_session_false_preserves_state_witness :
    Session.load_session c10_session c10_world = Except.ok (false, c10_session) ∧
    c10_session = c10_session :=
  ⟨rfl, load_session_false_preserves_state c10_session c10_world c10_session rfl⟩
